/-
Verification of the FastAPI-assignment repository against its
natural-language specification.

The repository holds three independent services:
  * assignment1: user registration/login with JWT auth over a relational
    store (`src/assignment1/main.py`, `schemas.py`);
  * assignment2: a weather proxy with an in-memory TTL cache and a per-IP
    sliding-window rate limiter (`src/assignment2/main.py`);
  * assignment3: a blog/comments CRUD service with JWT auth and ownership
    checks (`src/assignment3/main.py`, `schemas.py`).

This file gives a shallow embedding of the state and handler logic those
claims are about, translated directly from the Python source, and proves
or refutes each claim.  Machine time (`time.time()`) is modelled by an
`Int`-valued instant; payloads fetched from the upstream weather API are
an abstract type parameter.
-/
import Mathlib

namespace FastAPIAssignment

/-! ## Assignment 2: TTL cache (`WeatherCache` in src/assignment2/main.py) -/

/-- `CACHE_TTL_SECONDS = 600` in src/assignment2/main.py. -/
def CACHE_TTL_SECONDS : Int := 600

/-- One value of the `self.store` dict: `{'data': ..., 'expiry': ...}`. -/
structure CacheEntry (α : Type) where
  data : α
  expiry : Int
  deriving Repr, DecidableEq

/-- The `WeatherCache` object: a dict from string keys to entries plus the
two counters.  The dict is modelled as an association list with the key
of each entry stored alongside it; `List.lookup` plays the role of
`dict.get`. -/
structure WeatherCache (α : Type) where
  store : List (String × CacheEntry α)
  hits : Nat
  misses : Nat
  deriving Repr, DecidableEq

namespace WeatherCache

/-- The fresh cache built by `WeatherCache.__init__`. -/
def init (α : Type) : WeatherCache α := ⟨[], 0, 0⟩

/-- `del self.store[key]`: drop the (unique) entry stored under `key`. -/
def removeKey (store : List (String × CacheEntry α)) (key : String) :
    List (String × CacheEntry α) :=
  store.eraseP (fun p => p.1 == key)

/-- `WeatherCache.get` (src/assignment2/main.py lines 46-60).  Looks the key
up; a missing entry counts a miss; an entry with `time.time() > expiry` is
deleted and counts a miss; otherwise the stored data is returned and a hit
is counted.  Returns the Python return value paired with the mutated
cache. -/
def get (c : WeatherCache α) (key : String) (now : Int) :
    Option α × WeatherCache α :=
  match c.store.lookup key with
  | none => (none, { c with misses := c.misses + 1 })
  | some entry =>
    if entry.expiry < now then
      (none, { c with store := removeKey c.store key, misses := c.misses + 1 })
    else
      (some entry.data, { c with hits := c.hits + 1 })

/-- `WeatherCache.set` (lines 62-67): `self.store[key] = {'data': data,
'expiry': time.time() + CACHE_TTL_SECONDS}` — dict assignment overwrites
any previous entry under the key. -/
def set (c : WeatherCache α) (key : String) (data : α) (now : Int) :
    WeatherCache α :=
  { c with store := removeKey c.store key ++ [(key, ⟨data, now + CACHE_TTL_SECONDS⟩)] }

/-- `WeatherCache.clear` (lines 69-73). -/
def clear (_c : WeatherCache α) : WeatherCache α := ⟨[], 0, 0⟩

/-- `WeatherCache.get_stats` (lines 75-80), as the triple
(cache_hits, cache_misses, cached_items_count). -/
def get_stats (c : WeatherCache α) : Nat × Nat × Nat :=
  (c.hits, c.misses, c.store.length)

end WeatherCache

/-! ## Assignment 2: rate limiter (`rate_limiter` middleware) -/

/-- `RATE_LIMIT_MAX_REQUESTS = 10`. -/
def RATE_LIMIT_MAX_REQUESTS : Nat := 10

/-- `RATE_LIMIT_WINDOW = 60`. -/
def RATE_LIMIT_WINDOW : Int := 60

/-- `rate_limit_store: Dict[str, List[float]]`, modelled as a total map
defaulting to the empty list: `if client_ip not in rate_limit_store:
rate_limit_store[client_ip] = []` makes a missing key and an empty list
behave identically. -/
def RateStore : Type := String → List Int

/-- The store before any request was seen. -/
def emptyRateStore : RateStore := fun _ => []

/-- The `rate_limiter` middleware (src/assignment2/main.py lines 100-126),
restricted to its state transition: prune the client's timestamps to those
with `t > current_time - RATE_LIMIT_WINDOW`, store the pruned list, then
deny (`429`, nothing appended) if at least `RATE_LIMIT_MAX_REQUESTS`
remain, else append `current_time` and allow.  Returns `true` for allow. -/
def rate_limiter (store : RateStore) (client_ip : String) (current_time : Int) :
    Bool × RateStore :=
  let pruned := (store client_ip).filter
    (fun t => decide (current_time - RATE_LIMIT_WINDOW < t))
  if RATE_LIMIT_MAX_REQUESTS ≤ pruned.length then
    (false, Function.update store client_ip pruned)
  else
    (true, Function.update store client_ip (pruned ++ [current_time]))

/-- Runs a sequence of requests `(client_ip, instant)` through the
middleware, collecting each check's allow/deny outcome. -/
def runRequests (store : RateStore) :
    List (String × Int) → List Bool × RateStore
  | [] => ([], store)
  | (ip, t) :: rest =>
    let r := rate_limiter store ip t
    let rr := runRequests r.2 rest
    (r.1 :: rr.1, rr.2)

/-! ## Assignment 2: weather endpoints

The two route handlers `get_current_weather` and `get_weather_forecast`
talk to the Open-Meteo API through `httpx`.  The upstream is a black box;
what the handlers observe of it is which exception class, if any, each
call raises.  In httpx, `HTTPStatusError` (raised by
`response.raise_for_status()` on a non-2xx reply) and `RequestError`
(network failure, including the bounded `HTTP_TIMEOUT` elapsing) are
sibling subclasses of `HTTPError`: an `except httpx.RequestError` clause
does NOT catch `HTTPStatusError`.  `L` abstracts the geocoding result
record, `P` the standardized payload the handler builds from a successful
weather reply. -/

/-- Outcome of the geocoding call inside `get_coordinates`. -/
inductive GeoUpstream (L : Type) where
  | ok (loc : L)
  | noResults
  | httpStatusError
  | requestError

/-- Outcome of the weather-data call inside an endpoint body. -/
inductive WeatherUpstream (P : Type) where
  | ok (payload : P)
  | httpStatusError
  | requestError

/-- `get_coordinates` (src/assignment2/main.py lines 130-149): a reply with
empty `results` raises `HTTPException(404)`; `httpx.HTTPStatusError` and
`httpx.RequestError` are each caught and turned into
`HTTPException(503)`. -/
def get_coordinates : GeoUpstream L → Except Nat L
  | .ok loc => .ok loc
  | .noResults => .error 404
  | .httpStatusError => .error 503
  | .requestError => .error 503

/-- `get_current_weather` (lines 164-214).  A truthy cached payload is
returned as is (the cached payloads are non-empty dicts, hence truthy);
otherwise the geocoding call runs, then the weather call, whose `try`
block catches `httpx.RequestError` as 503 and every other exception —
including `httpx.HTTPStatusError` — as 500 (`except Exception`).  `now`
is the `time.time()` instant of the request; the error side of the
`Except` is the HTTP status code of the raised `HTTPException`. -/
def get_current_weather (c : WeatherCache P) (city : String) (now : Int)
    (geo : GeoUpstream L) (wx : WeatherUpstream P) :
    Except Nat P × WeatherCache P :=
  let cache_key := "current_" ++ city.toLower
  match c.get cache_key now with
  | (some cached_data, c1) => (.ok cached_data, c1)
  | (none, c1) =>
    match get_coordinates geo with
    | .error e => (.error e, c1)
    | .ok _location =>
      match wx with
      | .ok result => (.ok result, c1.set cache_key result now)
      | .requestError => (.error 503, c1)
      | .httpStatusError => (.error 500, c1)

/-- `get_weather_forecast` (lines 216-267).  Same shape, but its `try`
block only catches `httpx.RequestError` (503): an `httpx.HTTPStatusError`
from the forecast call propagates unhandled out of the handler and FastAPI
answers 500 Internal Server Error. -/
def get_weather_forecast (c : WeatherCache P) (city : String) (now : Int)
    (geo : GeoUpstream L) (wx : WeatherUpstream P) :
    Except Nat P × WeatherCache P :=
  let cache_key := "forecast_" ++ city.toLower
  match c.get cache_key now with
  | (some cached_data, c1) => (.ok cached_data, c1)
  | (none, c1) =>
    match get_coordinates geo with
    | .error e => (.error e, c1)
    | .ok _location =>
      match wx with
      | .ok result => (.ok result, c1.set cache_key result now)
      | .requestError => (.error 503, c1)
      | .httpStatusError => (.error 500, c1)

/-- HTTP status of a handler outcome: a successful return is a 200
response, an `HTTPException e` (or unhandled exception mapped to 500)
answers with its code. -/
def statusOf : Except Nat P → Nat
  | .ok _ => 200
  | .error e => e

/-! ## Assignment 3: blog data model (src/assignment3/main.py, schemas.py)

The SQLAlchemy `models.py` of assignment3 is not under src/; the row
types below carry exactly the columns the handlers and schemas under src/
read and write (`created_at`/`updated_at` timestamps are omitted: no
handler logic or claim touches them). -/

structure User3 where
  id : Nat
  username : String
  email : String
  hashed_password : String
  deriving Repr, DecidableEq

structure Post where
  id : Nat
  title : String
  content : String
  author_id : Nat
  deriving Repr, DecidableEq

structure Comment where
  id : Nat
  text : String
  post_id : Nat
  author_id : Nat
  deriving Repr, DecidableEq

/-- The relational store of assignment3, in insertion order (a plain
`SELECT` returns rows in rowid order). -/
structure BlogDB where
  users : List User3
  posts : List Post
  comments : List Comment
  deriving Repr, DecidableEq

/-- `schemas.UserCreate` of assignment3 (src/assignment3/schemas.py lines
6-9): three bare `str` fields, no validator of any kind. -/
structure UserCreate3 where
  username : String
  email : String
  password : String
  deriving Repr, DecidableEq

/-- `schemas.PostUpdate` (src/assignment3/schemas.py lines 36-38): both
fields `Optional[str] = None`. -/
structure PostUpdate where
  title : Option String
  content : Option String
  deriving Repr, DecidableEq

/-- Python truthiness of an `Optional[str]`: `None` and `""` are falsy. -/
def truthyStr : Option String → Bool
  | none => false
  | some s => s != ""

/-- Modelled from the spec: assignment3's `models.py` (the SQLAlchemy
table declarations with their unique constraints) is not under src/.  Per
the spec's data-model invariant — "username (or email, per assignment)
unique across all identities" — and assignment3's own rollback test, the
store raises `IntegrityError` on an `INSERT` exactly when the new row
duplicates an existing username or email. -/
def insertUserRaises (users : List User3) (u : User3) : Bool :=
  users.any (fun v => v.username == u.username || v.email == u.email)

/-- `register` of assignment3 (src/assignment3/main.py lines 14-29):
application-level pre-check on the username (400), then the insert inside
`try`; an `IntegrityError` from the store is caught, the session rolled
back, and 400 raised.  `hashFn` abstracts `auth.get_password_hash` (the
`auth.py` module is not under src/). -/
def register3 (hashFn : String → String) (db : BlogDB) (user : UserCreate3) :
    Except Nat User3 × BlogDB :=
  match db.users.find? (fun u => u.username == user.username) with
  | some _ => (.error 400, db)
  | none =>
    let new_user : User3 :=
      ⟨db.users.length + 1, user.username, user.email, hashFn user.password⟩
    if insertUserRaises db.users new_user then
      (.error 400, db)
    else
      (.ok new_user, { db with users := db.users ++ [new_user] })

/-! ## Assignment 3: post search and pagination -/

/-- Case-insensitive character comparison (ASCII case folding, matching
SQLite's `LIKE` which folds ASCII letters only). -/
def lowerEq (a b : Char) : Bool := a.toLower == b.toLower

/-- SQL `LIKE` pattern matching as the `ilike` filter executes it: `%`
matches any (possibly empty) run of characters, `_` matches exactly one
character, every other pattern character matches itself
case-insensitively. -/
def likeMatch : List Char → List Char → Bool
  | [], s => s.isEmpty
  | p :: ps, s =>
    if p = '%' then s.tails.any (fun t => likeMatch ps t)
    else
      match s with
      | [] => false
      | c :: tl => (if p = '_' then true else lowerEq p c) && likeMatch ps tl

/-- `column.ilike(pattern)` on strings. -/
def ilike (column pattern : String) : Bool :=
  likeMatch pattern.toList column.toList

/-- `get_posts` (src/assignment3/main.py lines 53-64):
`db.query(Post)`, then `query.filter(Post.title.ilike(f"%{search}%"))`
when `search` is truthy, then `.offset(skip).limit(limit).all()`. -/
def get_posts (posts : List Post) (skip limit : Nat) (search : Option String) :
    List Post :=
  let query :=
    match search with
    | some s =>
      if s != "" then posts.filter (fun (p : Post) => ilike p.title ("%" ++ s ++ "%"))
      else posts
    | none => posts
  (query.drop skip).take limit

/-- `p` is a case-insensitive leading segment of `s`. -/
def ciLeads : List Char → List Char → Bool
  | [], _ => true
  | _ :: _, [] => false
  | a :: as, b :: bs => lowerEq a b && ciLeads as bs

/-- `needle` occurs in `hay` as a case-insensitive contiguous substring. -/
def ciSub (needle : List Char) : List Char → Bool
  | [] => needle.isEmpty
  | c :: tl => ciLeads needle (c :: tl) || ciSub needle tl

/-- `needle` is a case-insensitive substring of `hay`, on strings. -/
def containsCI (hay needle : String) : Bool := ciSub needle.toList hay.toList

/-- The search semantics stated by the specification's words — "search is
case-insensitive substring match on title" — for comparison with the
`ilike`-based `get_posts` translated from the source. -/
def get_posts_specSearch (posts : List Post) (skip limit : Nat)
    (search : Option String) : List Post :=
  let query :=
    match search with
    | some s => posts.filter (fun (p : Post) => containsCI p.title s)
    | none => posts
  (query.drop skip).take limit

/-! ## Assignment 3: mutating post/comment handlers -/

/-- The field application of `update_post` (src/assignment3/main.py lines
86-89): each of `title` and `content` is applied only when truthy. -/
def applyPostUpdate (post_update : PostUpdate) (db_post : Post) : Post :=
  let p1 :=
    if truthyStr post_update.title then
      { db_post with title := post_update.title.getD db_post.title }
    else db_post
  if truthyStr post_update.content then
    { p1 with content := post_update.content.getD p1.content }
  else p1

/-- `update_post` (src/assignment3/main.py lines 73-93): 404 when no post
has the id, 403 when the authenticated user is not the author (`db_post.
author_id != current_user.id`), both raised before any mutation; then the
truthy fields are applied and the row committed. -/
def update_post (db : BlogDB) (post_id : Nat) (post_update : PostUpdate)
    (current_user_id : Nat) : Except Nat Post × BlogDB :=
  match db.posts.find? (fun p => p.id == post_id) with
  | none => (.error 404, db)
  | some db_post =>
    if db_post.author_id != current_user_id then (.error 403, db)
    else
      (.ok (applyPostUpdate post_update db_post),
        { db with posts := (db.posts.map (fun p =>
            if p.id == post_id then applyPostUpdate post_update db_post else p)) })

/-- `delete_post` (lines 95-109): 404 / 403 before any mutation, then the
row is deleted.  The cascade to the post's comments is modelled from the
spec ("Deleting a Post cascades to delete all Comments referencing it"):
the cascade configuration lives in the missing `models.py`, and
assignment3's own `test_cascading_delete` asserts it. -/
def delete_post (db : BlogDB) (post_id : Nat) (current_user_id : Nat) :
    Except Nat Unit × BlogDB :=
  match db.posts.find? (fun p => p.id == post_id) with
  | none => (.error 404, db)
  | some db_post =>
    if db_post.author_id != current_user_id then (.error 403, db)
    else
      (.ok (), { db with
        posts := db.posts.filter (fun p => p.id != post_id),
        comments := db.comments.filter (fun cm => cm.post_id != post_id) })

/-- `delete_comment` (src/assignment3/main.py lines 138-152): 404 when no
comment has the id, 403 when the authenticated user is not the comment's
author, both before any mutation; then the row is deleted. -/
def delete_comment (db : BlogDB) (comment_id : Nat) (current_user_id : Nat) :
    Except Nat Unit × BlogDB :=
  match db.comments.find? (fun cm => cm.id == comment_id) with
  | none => (.error 404, db)
  | some comment =>
    if comment.author_id != current_user_id then (.error 403, db)
    else
      (.ok (), { db with comments := db.comments.filter (fun cm => cm.id != comment_id) })

/-! ## Assignment 1: registration, password policy, profile update -/

/-- A user row of assignment1 (`models.User`; the models module is not
under src/, the columns are those the handlers under src/ use). -/
structure UserA1 where
  id : Nat
  email : String
  username : String
  hashed_password : String
  deriving Repr, DecidableEq

/-- `schemas.UserCreate` of assignment1. -/
structure UserCreateA1 where
  email : String
  username : String
  password : String
  deriving Repr, DecidableEq

/-- `schemas.UserUpdate` of assignment1: both fields `Optional = None`. -/
structure UserUpdateA1 where
  username : Option String
  email : Option String
  deriving Repr, DecidableEq

/-- `re.search(r"\d", v)` finds a decimal digit (the passwords at issue
are ASCII; `'0'..'9'`). -/
def isAsciiDigit (c : Char) : Bool := '0' ≤ c && c ≤ '9'

/-- `UserCreate.validate_password` (src/assignment1/schemas.py lines
15-21): rejects a password shorter than 8 characters, then one containing
no digit; otherwise returns it unchanged.  Pydantic runs this validator
while parsing the request body, before the route handler — and hence
before any hashing or store access — and a `ValueError` becomes a
validation-error response. -/
def validate_password (v : String) : Except String String :=
  if v.length < 8 then .error "Password must be at least 8 characters long"
  else if !(v.toList.any isAsciiDigit) then .error "Password must contain at least one number"
  else .ok v

/-- `register` of assignment1 (src/assignment1/main.py lines 20-38): the
schema (with its password validator) is parsed first; then an
application-level pre-check on the email (400 "Email already registered");
then the row is inserted.  `hashFn` abstracts
`security.get_password_hash`. -/
def registerA1 (hashFn : String → String) (users : List UserA1)
    (user : UserCreateA1) : Except Nat UserA1 × List UserA1 :=
  match validate_password user.password with
  | .error _ => (.error 422, users)
  | .ok pw =>
    match users.find? (fun u => u.email == user.email) with
    | some _ => (.error 400, users)
    | none =>
      let new_user : UserA1 := ⟨users.length + 1, user.email, user.username, hashFn pw⟩
      (.ok new_user, users ++ [new_user])

/-- The email branch of `update_user_me` (src/assignment1/main.py lines
71-76): when the given email is truthy and differs from the current one, a
duplicate check may raise 400, else the email is applied. -/
def emailStepA1 (users : List UserA1) (current_user : UserA1)
    (user_update : UserUpdateA1) : Except Nat UserA1 :=
  match user_update.email with
  | some e =>
    if e != "" && e != current_user.email then
      if (users.find? (fun u => u.email == e)).isSome then .error 400
      else .ok { current_user with email := e }
    else .ok current_user
  | none => .ok current_user

/-- The username branch of `update_user_me` (src/assignment1/main.py lines
78-79): a truthy username is applied. -/
def usernameStepA1 (user_update : UserUpdateA1) (cu1 : UserA1) : UserA1 :=
  if truthyStr user_update.username then
    { cu1 with username := user_update.username.getD cu1.username }
  else cu1

/-- `update_user_me` (src/assignment1/main.py lines 65-83): the email
branch, then the username branch, then the updated row is committed. -/
def update_user_me (users : List UserA1) (current_user : UserA1)
    (user_update : UserUpdateA1) : Except Nat UserA1 × List UserA1 :=
  match emailStepA1 users current_user user_update with
  | .error code => (.error code, users)
  | .ok cu1 =>
    (.ok (usernameStepA1 user_update cu1),
      users.map (fun u =>
        if u.id == current_user.id then usernameStepA1 user_update cu1 else u))

/-! ## Rate limiter: claims C1 and C9 -/

/-- After a check, every instant kept for the checked client lies strictly
inside the window ending at the check's instant. -/
theorem rate_limiter_window_mem (store : RateStore) (ip : String) (now t : Int)
    (ht : t ∈ (rate_limiter store ip now).2 ip) :
    now - RATE_LIMIT_WINDOW < t := by
  simp only [rate_limiter] at ht
  split at ht <;> simp only [Function.update_same] at ht
  · exact of_decide_eq_true (List.mem_filter.mp ht).2
  · rcases List.mem_append.mp ht with h | h
    · exact of_decide_eq_true (List.mem_filter.mp h).2
    · simp only [List.mem_singleton] at h
      subst h
      have : (0 : Int) < RATE_LIMIT_WINDOW := by decide
      omega

/-- One check never pushes any client's stored list past the quota. -/
theorem rate_limiter_length_le (store : RateStore) (ip : String) (now : Int)
    (hs : ∀ j, (store j).length ≤ RATE_LIMIT_MAX_REQUESTS) (j : String) :
    ((rate_limiter store ip now).2 j).length ≤ RATE_LIMIT_MAX_REQUESTS := by
  simp only [rate_limiter]
  split <;> rename_i h <;> rcases eq_or_ne j ip with rfl | hj
  · simp only [Function.update_same]
    exact le_trans (List.length_filter_le _ _) (hs j)
  · simp only [Function.update_noteq hj]; exact hs j
  · simp only [Function.update_same, List.length_append, List.length_singleton]
    omega
  · simp only [Function.update_noteq hj]; exact hs j

/-- Every store reachable from the empty one keeps every client's list at
or under the quota. -/
theorem runRequests_length_le (events : List (String × Int)) :
    ∀ (store : RateStore), (∀ j, (store j).length ≤ RATE_LIMIT_MAX_REQUESTS) →
      ∀ j, (((runRequests store events).2) j).length ≤ RATE_LIMIT_MAX_REQUESTS := by
  induction events with
  | nil => intro store hs j; exact hs j
  | cons e rest ih =>
    intro store hs j
    exact ih _ (rate_limiter_length_le store e.1 e.2 hs) j

/-- C1: each rate-limiter check first discards exactly the stored instants
at or before `now - 60`, then denies without recording the new instant when
at least 10 instants remain, and otherwise appends `now` and allows;
11 requests within one second from one client yield exactly 10 Allow and
1 Deny, and once the window has fully elapsed the next 10 checks are all
allowed again. -/
theorem C1_rate_limiter_sliding_window :
    (∀ (store : RateStore) (ip : String) (now : Int),
      ((rate_limiter store ip now).1 = true ↔
        ((store ip).filter
          (fun t => decide (now - RATE_LIMIT_WINDOW < t))).length
            < RATE_LIMIT_MAX_REQUESTS) ∧
      (rate_limiter store ip now).2 ip =
        (if RATE_LIMIT_MAX_REQUESTS ≤
            ((store ip).filter
              (fun t => decide (now - RATE_LIMIT_WINDOW < t))).length then
          (store ip).filter (fun t => decide (now - RATE_LIMIT_WINDOW < t))
        else
          (store ip).filter (fun t => decide (now - RATE_LIMIT_WINDOW < t))
            ++ [now])) ∧
    (runRequests emptyRateStore (List.replicate 11 ("1.2.3.4", 0))).1.count true = 10 ∧
    (runRequests emptyRateStore (List.replicate 11 ("1.2.3.4", 0))).1.count false = 1 ∧
    (runRequests emptyRateStore
        (List.replicate 11 ("1.2.3.4", (0 : Int)) ++
          List.replicate 10 ("1.2.3.4", 61))).1.drop 11 = List.replicate 10 true := by
  refine ⟨fun store ip now => ?_, by decide, by decide, by decide⟩
  constructor
  · simp only [rate_limiter]
    split <;> rename_i h <;> simp <;> omega
  · simp only [rate_limiter]
    split <;> rename_i h <;> simp only [Function.update_same]

/-- C9 fails as stated: "each client's stored timestamp list ... contains
only instants strictly greater than now - 60s" quantifies over every
client, but a client other than the one just checked keeps instants pruned
against its own earlier check time.  After client "A" is checked at
instant 0 and client "B" at instant 100, the completed check's `now` is
100, yet "A" still stores the instant 0 ≤ 100 - 60. -/
theorem C9_counterexample :
    0 ∈ (runRequests emptyRateStore [("A", 0), ("B", 100)]).2 "A" ∧
      ¬ (100 - RATE_LIMIT_WINDOW < (0 : Int)) := by decide

/-- C9 (amended): after every completed middleware check, every client's
stored list has length at most 10, and the list of the client that was
just checked contains only instants strictly greater than `now - 60`;
both hold for every store reachable from the empty one. -/
theorem C9_amended_rate_store_invariant :
    (∀ (events : List (String × Int)) (j : String),
      (((runRequests emptyRateStore events).2) j).length ≤ RATE_LIMIT_MAX_REQUESTS) ∧
    (∀ (store : RateStore) (ip : String) (now : Int),
      ∀ t ∈ (rate_limiter store ip now).2 ip, now - RATE_LIMIT_WINDOW < t) := by
  constructor
  · intro events j
    exact runRequests_length_le events emptyRateStore (fun _ => by simp [emptyRateStore]) j
  · intro store ip now t ht
    exact rate_limiter_window_mem store ip now t ht

/-- Concrete instantiation of `C9_amended_rate_store_invariant`: after the
two-event run, both invariant parts evaluate as the theorem states. -/
theorem C9_amended_witness :
    (((runRequests emptyRateStore [("A", 0), ("B", 100)]).2) "B").length
        ≤ RATE_LIMIT_MAX_REQUESTS ∧
      (100 : Int) - RATE_LIMIT_WINDOW < 100 :=
  ⟨(C9_amended_rate_store_invariant.1 [("A", 0), ("B", 100)] "B"),
    C9_amended_rate_store_invariant.2 (Function.update emptyRateStore "A" [0]) "B" 100 100
      (by decide)⟩

/-! ## TTL cache: claims C3 and C4 -/

/-- `get` on a present, unexpired entry: value returned, hit counted,
store untouched. -/
theorem cache_get_hit {α : Type} (c : WeatherCache α) {key : String}
    {now : Int} {e : CacheEntry α} (h : c.store.lookup key = some e)
    (he : now ≤ e.expiry) :
    c.get key now = (some e.data, { c with hits := c.hits + 1 }) := by
  unfold WeatherCache.get
  rw [h]
  exact if_neg (not_lt.mpr he)

/-- `get` on an absent key: miss counted, store untouched. -/
theorem cache_get_missing {α : Type} (c : WeatherCache α) {key : String}
    (now : Int) (h : c.store.lookup key = none) :
    c.get key now = (none, { c with misses := c.misses + 1 }) := by
  unfold WeatherCache.get
  rw [h]

/-- `get` on a present but expired entry: entry evicted, miss counted. -/
theorem cache_get_expired {α : Type} (c : WeatherCache α) {key : String}
    {now : Int} {e : CacheEntry α} (h : c.store.lookup key = some e)
    (he : e.expiry < now) :
    c.get key now =
      (none, { c with store := WeatherCache.removeKey c.store key,
                      misses := c.misses + 1 }) := by
  unfold WeatherCache.get
  rw [h]
  exact if_pos he

/-- C3: `get key` returns the stored value exactly when an entry for the
key is present and `now ≤ expiry`; a present-but-expired entry is removed
and a miss reported; a missing entry reports a miss; and every call
increments exactly one of the hit counter or the miss counter by 1. -/
theorem C3_cache_get_contract {α : Type} (c : WeatherCache α) (key : String)
    (now : Int) :
    ((c.get key now).1 ≠ none ↔
      ∃ e, c.store.lookup key = some e ∧ now ≤ e.expiry) ∧
    (∀ e, c.store.lookup key = some e → now ≤ e.expiry →
      c.get key now = (some e.data, { c with hits := c.hits + 1 })) ∧
    (∀ e, c.store.lookup key = some e → e.expiry < now →
      c.get key now =
        (none, { c with store := WeatherCache.removeKey c.store key,
                        misses := c.misses + 1 })) ∧
    (c.store.lookup key = none →
      c.get key now = (none, { c with misses := c.misses + 1 })) ∧
    (((c.get key now).2.hits = c.hits + 1 ∧ (c.get key now).2.misses = c.misses) ∨
      ((c.get key now).2.hits = c.hits ∧ (c.get key now).2.misses = c.misses + 1)) := by
  refine ⟨?_, fun e h he => cache_get_hit c h he,
    fun e h he => cache_get_expired c h he, fun h => cache_get_missing c now h, ?_⟩
  · constructor
    · intro hne
      rcases h : c.store.lookup key with _ | e
      · rw [cache_get_missing c now h] at hne
        simp at hne
      · by_cases hex : e.expiry < now
        · rw [cache_get_expired c h hex] at hne
          simp at hne
        · exact ⟨e, rfl, by omega⟩
    · rintro ⟨e, h, he⟩
      rw [cache_get_hit c h he]
      simp
  · rcases h : c.store.lookup key with _ | e
    · rw [cache_get_missing c now h]
      right; exact ⟨rfl, rfl⟩
    · by_cases hex : e.expiry < now
      · rw [cache_get_expired c h hex]
        right; exact ⟨rfl, rfl⟩
      · rw [cache_get_hit c h (by omega)]
        left; exact ⟨rfl, rfl⟩

/-- Concrete instantiation of `C3_cache_get_contract`: in a cache holding
`"k" ↦ (5, expiry 100)` with one prior hit and two prior misses, `get "k"`
at instant 50 returns the value and bumps the hit counter. -/
theorem C3_witness :
    (⟨[("k", ⟨5, 100⟩)], 1, 2⟩ : WeatherCache Nat).get "k" 50 =
      (some 5, ⟨[("k", ⟨5, 100⟩)], 2, 2⟩) :=
  (C3_cache_get_contract ⟨[("k", ⟨5, 100⟩)], 1, 2⟩ "k" 50).2.1 ⟨5, 100⟩ rfl (by decide)

/-- C4: two consecutive `get` calls for a key whose entry is within TTL
return the identical stored payload and move the counters by (+2 hits,
+0 misses); after `clear()` the store is empty, both counters are 0, and
the next `get` for any key is a miss. -/
theorem C4_cache_idempotence_and_clear {α : Type} (c : WeatherCache α)
    (key : String) (t1 t2 : Int) (e : CacheEntry α)
    (h : c.store.lookup key = some e) (h1 : t1 ≤ e.expiry) (h2 : t2 ≤ e.expiry) :
    ((c.get key t1).1 = some e.data ∧
      ((c.get key t1).2.get key t2).1 = some e.data ∧
      ((c.get key t1).2.get key t2).2.hits = c.hits + 2 ∧
      ((c.get key t1).2.get key t2).2.misses = c.misses) ∧
    (∀ d : WeatherCache α,
      d.clear.store = [] ∧ d.clear.hits = 0 ∧ d.clear.misses = 0 ∧
      ∀ (k : String) (t : Int),
        (d.clear.get k t).1 = none ∧ (d.clear.get k t).2.misses = 1) := by
  have g1 := cache_get_hit c h h1
  have h' : ((c.get key t1).2).store.lookup key = some e := by
    rw [g1]
    exact h
  have g2 := cache_get_hit ((c.get key t1).2) h' h2
  refine ⟨⟨by rw [g1], by rw [g2], by rw [g2, g1], by rw [g2, g1]⟩, fun d => ?_⟩
  refine ⟨rfl, rfl, rfl, fun k t => ?_⟩
  have : (WeatherCache.clear d).store.lookup k = none := rfl
  rw [cache_get_missing _ t this]
  exact ⟨rfl, rfl⟩

/-- Concrete instantiation of `C4_cache_idempotence_and_clear` on the
one-entry cache, read twice at instants 40 and 60 within the TTL. -/
theorem C4_witness :
    ((((⟨[("k", ⟨7, 100⟩)], 0, 0⟩ : WeatherCache Nat).get "k" 40).2.get "k" 60).1 = some 7 ∧
      (((⟨[("k", ⟨7, 100⟩)], 0, 0⟩ : WeatherCache Nat).get "k" 40).2.get "k" 60).2.hits = 2) ∧
    ((⟨[("k", ⟨7, 100⟩)], 0, 0⟩ : WeatherCache Nat).clear.store = ([] : List (String × CacheEntry Nat))) := by
  have hmain := C4_cache_idempotence_and_clear
    (⟨[("k", ⟨7, 100⟩)], 0, 0⟩ : WeatherCache Nat) "k" 40 60 ⟨7, 100⟩ rfl
    (by decide) (by decide)
  exact ⟨⟨hmain.1.2.1, hmain.1.2.2.1⟩, (hmain.2 _).1⟩

/-! ## Ownership: claim C2 -/

/-- C2: for every existing post or comment and every authenticated
identity whose id differs from the resource's `author_id`, update and
delete of the resource fail with 403 Forbidden (a status distinct from
401) leaving the store unchanged, and each operation succeeds only when
the actor's id equals the owner's id. -/
theorem C2_ownership_forbidden (db : BlogDB) (uid : Nat) :
    (∀ (pid : Nat) (p : Post) (upd : PostUpdate),
      db.posts.find? (fun q => q.id == pid) = some p → p.author_id ≠ uid →
      update_post db pid upd uid = (.error 403, db) ∧
      delete_post db pid uid = (.error 403, db)) ∧
    (∀ (cid : Nat) (cm : Comment),
      db.comments.find? (fun q => q.id == cid) = some cm → cm.author_id ≠ uid →
      delete_comment db cid uid = (.error 403, db)) ∧
    (∀ (pid : Nat) (p r : Post) (upd : PostUpdate) (db' : BlogDB),
      db.posts.find? (fun q => q.id == pid) = some p →
      update_post db pid upd uid = (.ok r, db') → p.author_id = uid) ∧
    (∀ (pid : Nat) (p : Post) (db' : BlogDB),
      db.posts.find? (fun q => q.id == pid) = some p →
      delete_post db pid uid = (.ok (), db') → p.author_id = uid) ∧
    (∀ (cid : Nat) (cm : Comment) (db' : BlogDB),
      db.comments.find? (fun q => q.id == cid) = some cm →
      delete_comment db cid uid = (.ok (), db') → cm.author_id = uid) ∧
    (403 : Nat) ≠ 401 := by
  refine ⟨?_, ?_, ?_, ?_, ?_, by omega⟩
  · intro pid p upd hf hne
    constructor
    · unfold update_post
      rw [hf]
      exact if_pos (bne_iff_ne.mpr hne)
    · unfold delete_post
      rw [hf]
      exact if_pos (bne_iff_ne.mpr hne)
  · intro cid cm hf hne
    unfold delete_comment
    rw [hf]
    exact if_pos (bne_iff_ne.mpr hne)
  · intro pid p r upd db' hf heq
    by_contra hne
    have h403 : update_post db pid upd uid = (.error 403, db) := by
      unfold update_post
      rw [hf]
      exact if_pos (bne_iff_ne.mpr hne)
    rw [h403] at heq
    simp at heq
  · intro pid p db' hf heq
    by_contra hne
    have h403 : delete_post db pid uid = (.error 403, db) := by
      unfold delete_post
      rw [hf]
      exact if_pos (bne_iff_ne.mpr hne)
    rw [h403] at heq
    simp at heq
  · intro cid cm db' hf heq
    by_contra hne
    have h403 : delete_comment db cid uid = (.error 403, db) := by
      unfold delete_comment
      rw [hf]
      exact if_pos (bne_iff_ne.mpr hne)
    rw [h403] at heq
    simp at heq

/-- Concrete instantiation of `C2_ownership_forbidden`: user 2 may not
update user 1's post. -/
theorem C2_witness :
    update_post ⟨[], [⟨1, "User1 Post", "Content", 1⟩], []⟩ 1 ⟨some "Hacked Title", none⟩ 2 =
      (.error 403, ⟨[], [⟨1, "User1 Post", "Content", 1⟩], []⟩) :=
  ((C2_ownership_forbidden ⟨[], [⟨1, "User1 Post", "Content", 1⟩], []⟩ 2).1 1
    ⟨1, "User1 Post", "Content", 1⟩ ⟨some "Hacked Title", none⟩ rfl (by decide)).1

/-! ## Registration conflicts: claim C5 -/

/-- C5: a second registration with an already-registered username fails
with 400 Conflict; a store-level uniqueness violation (duplicate email
reaching the insert of assignment3's `register`) is caught, translated to
400 Conflict and rolled back, leaving the store exactly as before the
failed write, with the first identity still queryable; assignment1's
`register` likewise rejects an already-registered email with 400 leaving
its store unchanged. -/
theorem C5_register_conflict (hashFn : String → String) :
    (∀ (db : BlogDB) (u : UserCreate3) (v : User3),
      v ∈ db.users → v.username = u.username →
      register3 hashFn db u = (.error 400, db)) ∧
    (∀ (db : BlogDB) (u : UserCreate3) (v : User3),
      v ∈ db.users → v.email = u.email →
      register3 hashFn db u = (.error 400, db)) ∧
    (∀ (db : BlogDB) (u : UserCreate3) (code : Nat),
      (register3 hashFn db u).1 = .error code → (register3 hashFn db u).2 = db) ∧
    (∀ (users : List UserA1) (u : UserCreateA1) (v : UserA1) (pw : String),
      validate_password u.password = .ok pw → v ∈ users → v.email = u.email →
      registerA1 hashFn users u = (.error 400, users)) := by
  refine ⟨?_, ?_, ?_, ?_⟩
  · intro db u v hv hname
    have : db.users.find? (fun w => w.username == u.username) ≠ none := by
      intro hnone
      have := List.find?_eq_none.mp hnone v hv
      simp [hname] at this
    rcases hw : db.users.find? (fun w => w.username == u.username) with _ | w
    · exact absurd hw this
    · unfold register3
      rw [hw]
  · intro db u v hv hemail
    rcases hw : db.users.find? (fun w => w.username == u.username) with _ | w
    · unfold register3
      rw [hw]
      have hraise : insertUserRaises db.users
          ⟨db.users.length + 1, u.username, u.email, hashFn u.password⟩ = true := by
        unfold insertUserRaises
        exact List.any_eq_true.mpr ⟨v, hv, by simp [hemail]⟩
      rw [if_pos hraise]
    · unfold register3
      rw [hw]
  · intro db u code heq
    rcases hw : db.users.find? (fun w => w.username == u.username) with _ | w
    · by_cases hr : insertUserRaises db.users
        ⟨db.users.length + 1, u.username, u.email, hashFn u.password⟩ = true
      · have h400 : register3 hashFn db u = (.error 400, db) := by
          unfold register3
          rw [hw]
          exact if_pos hr
        rw [h400]
      · have hok : register3 hashFn db u =
            (.ok ⟨db.users.length + 1, u.username, u.email, hashFn u.password⟩,
              { db with users := db.users ++
                [⟨db.users.length + 1, u.username, u.email, hashFn u.password⟩] }) := by
          unfold register3
          rw [hw]
          exact if_neg hr
        rw [hok] at heq
        simp at heq
    · have h400 : register3 hashFn db u = (.error 400, db) := by
        unfold register3
        rw [hw]
      rw [h400]
  · intro users u v pw hval hv hemail
    unfold registerA1
    rw [hval]
    have : users.find? (fun w => w.email == u.email) ≠ none := by
      intro hnone
      have := List.find?_eq_none.mp hnone v hv
      simp [hemail] at this
    rcases hw : users.find? (fun w => w.email == u.email) with _ | w
    · exact absurd hw this
    · rw [hw]

/-- Concrete instantiation of `C5_register_conflict`: with "alice" already
registered, a second "alice" registration fails with 400 and leaves the
one-user store intact. -/
theorem C5_witness :
    register3 (fun s => s) ⟨[⟨1, "alice", "alice@mail.com", "h"⟩], [], []⟩
        ⟨"alice", "other@mail.com", "password1"⟩ =
      (.error 400, ⟨[⟨1, "alice", "alice@mail.com", "h"⟩], [], []⟩) :=
  (C5_register_conflict (fun s => s)).1 ⟨[⟨1, "alice", "alice@mail.com", "h"⟩], [], []⟩
    ⟨"alice", "other@mail.com", "password1"⟩ ⟨1, "alice", "alice@mail.com", "h"⟩
    (by decide) rfl

/-! ## Password policy: claim C7 -/

/-- C7 fails as stated: "for every registration input" covers assignment3's
registration too, whose `UserCreate` schema has no password validator.
The 3-character, digit-free password "pwd" (the one assignment3's own
tests register with) passes straight through `register` and its hash
reaches the credential store. -/
theorem C7_counterexample :
    ("pwd".length < 8 ∧ "pwd".toList.any isAsciiDigit = false) ∧
    register3 (fun s => s) ⟨[], [], []⟩ ⟨"user_A", "usera@mail.com", "pwd"⟩ =
      (.ok ⟨1, "user_A", "usera@mail.com", "pwd"⟩,
        ⟨[⟨1, "user_A", "usera@mail.com", "pwd"⟩], [], []⟩) :=
  ⟨by decide, rfl⟩

/-- C7 (amended): in assignment1's registration, a password shorter than 8
characters or containing no digit is rejected by the schema validator —
before hashing, for every hash function, leaving the store untouched — and
a password is accepted exactly when it meets both conditions; assignment3's
registration applies no password policy. -/
theorem C7_amended_password_policy :
    (∀ v : String, (∃ w, validate_password v = .ok w) ↔
      (8 ≤ v.length ∧ v.toList.any isAsciiDigit = true)) ∧
    (∀ (hashFn : String → String) (users : List UserA1) (u : UserCreateA1),
      (u.password.length < 8 ∨ u.password.toList.any isAsciiDigit = false) →
      registerA1 hashFn users u = (.error 422, users)) := by
  constructor
  · intro v
    unfold validate_password
    split_ifs with h1 h2
    · exact iff_of_false (fun ⟨w, hw⟩ => by simp at hw) (fun ⟨h8, _⟩ => by omega)
    · exact iff_of_false (fun ⟨w, hw⟩ => by simp at hw)
        (fun ⟨_, hd⟩ => by rw [hd] at h2; simp at h2)
    · refine iff_of_true ⟨v, rfl⟩ ⟨by omega, ?_⟩
      simpa using h2
  · intro hashFn users u h
    have hv : ∃ msg, validate_password u.password = .error msg := by
      unfold validate_password
      split_ifs with h1 h2
      · exact ⟨_, rfl⟩
      · exact ⟨_, rfl⟩
      · exfalso
        rcases h with h | h
        · exact h1 h
        · rw [h] at h2
          simp at h2
    rcases hv with ⟨msg, hmsg⟩
    unfold registerA1
    rw [hmsg]

/-- Concrete instantiation of `C7_amended_password_policy`: the password
"pwd" is rejected by assignment1's registration for every store and hash
function; here the identity hash and an empty store. -/
theorem C7_amended_witness :
    registerA1 (fun s => s) [] ⟨"a@mail.com", "a", "pwd"⟩ = (.error 422, []) :=
  C7_amended_password_policy.2 (fun s => s) [] ⟨"a@mail.com", "a", "pwd"⟩
    (Or.inl (by decide))

/-! ## Truthiness-guarded updates: claim C10 -/

/-- The email branch never touches the username or the id. -/
theorem emailStepA1_preserves_username (users : List UserA1) (cu : UserA1)
    (uupd : UserUpdateA1) (cu1 : UserA1)
    (h : emailStepA1 users cu uupd = .ok cu1) :
    cu1.username = cu.username := by
  obtain ⟨uname, uemail⟩ := uupd
  cases uemail with
  | none =>
    unfold emailStepA1 at h
    simp only [Except.ok.injEq] at h
    rw [← h]
  | some e =>
    unfold emailStepA1 at h
    simp only at h
    split_ifs at h with h1 h2 <;>
      first
        | exact Except.noConfusion h
        | (simp only [Except.ok.injEq] at h; rw [← h])

/-- Characterization of the truthiness-guarded field application of
`update_post`. -/
theorem applyPostUpdate_char (upd : PostUpdate) (q : Post) :
    ((upd.title = none ∨ upd.title = some "") → (applyPostUpdate upd q).title = q.title) ∧
    ((upd.content = none ∨ upd.content = some "") →
      (applyPostUpdate upd q).content = q.content) ∧
    ((applyPostUpdate upd q).title = "" → q.title = "") ∧
    ((applyPostUpdate upd q).content = "" → q.content = "") := by
  refine ⟨?_, ?_, ?_, ?_⟩
  · intro ht
    have hft : truthyStr upd.title = false := by
      rcases ht with h | h <;> simp [h, truthyStr]
    by_cases hc : truthyStr upd.content = true <;> simp [applyPostUpdate, hft, hc]
  · intro hc
    have hfc : truthyStr upd.content = false := by
      rcases hc with h | h <;> simp [h, truthyStr]
    by_cases ht : truthyStr upd.title = true <;> simp [applyPostUpdate, hfc, ht]
  · intro hempty
    by_cases ht : truthyStr upd.title = true
    · rcases h : upd.title with _ | s
      · rw [h] at ht
        simp [truthyStr] at ht
      · rw [h] at ht
        have hs : s ≠ "" := by simpa [truthyStr] using ht
        by_cases hc : truthyStr upd.content = true <;>
          simp [applyPostUpdate, h, ht, hc] at hempty <;> exact absurd hempty hs
    · rw [Bool.not_eq_true] at ht
      by_cases hc : truthyStr upd.content = true <;>
        simp [applyPostUpdate, ht, hc] at hempty <;> exact hempty
  · intro hempty
    by_cases hc : truthyStr upd.content = true
    · rcases h : upd.content with _ | s
      · rw [h] at hc
        simp [truthyStr] at hc
      · rw [h] at hc
        have hs : s ≠ "" := by simpa [truthyStr] using hc
        by_cases ht : truthyStr upd.title = true <;>
          simp [applyPostUpdate, h, ht, hc] at hempty <;> exact absurd hempty hs
    · rw [Bool.not_eq_true] at hc
      by_cases ht : truthyStr upd.title = true <;>
        simp [applyPostUpdate, ht, hc] at hempty <;> exact hempty

/-- Characterization of the truthiness-guarded username application of
`update_user_me`. -/
theorem usernameStepA1_char (uupd : UserUpdateA1) (cu1 : UserA1) :
    ((uupd.username = none ∨ uupd.username = some "") →
      (usernameStepA1 uupd cu1).username = cu1.username) ∧
    ((usernameStepA1 uupd cu1).username = "" → cu1.username = "") := by
  constructor
  · intro ht
    have hft : truthyStr uupd.username = false := by
      rcases ht with h | h <;> simp [h, truthyStr]
    simp [usernameStepA1, hft]
  · intro hempty
    by_cases ht : truthyStr uupd.username = true
    · rcases h : uupd.username with _ | s
      · rw [h] at ht
        simp [truthyStr] at ht
      · rw [h] at ht
        have hs : s ≠ "" := by simpa [truthyStr] using ht
        simp [usernameStepA1, h, ht] at hempty
        exact absurd hempty hs
    · rw [Bool.not_eq_true] at ht
      simp [usernameStepA1, ht] at hempty
      exact hempty

/-- C10: a `PUT /posts/{id}` whose title or content is absent or the empty
string leaves that field unchanged (only truthy values are applied), so a
post's title or content can end up empty only if it already was; likewise
`PUT /users/me` with an absent or empty username leaves the username
unchanged. -/
theorem C10_truthy_updates :
    (∀ (db : BlogDB) (pid uid : Nat) (upd : PostUpdate) (q p : Post) (db' : BlogDB),
      db.posts.find? (fun r => r.id == pid) = some q →
      update_post db pid upd uid = (.ok p, db') →
      ((upd.title = none ∨ upd.title = some "") → p.title = q.title) ∧
      ((upd.content = none ∨ upd.content = some "") → p.content = q.content) ∧
      (p.title = "" → q.title = "") ∧
      (p.content = "" → q.content = "")) ∧
    (∀ (users : List UserA1) (cu : UserA1) (uupd : UserUpdateA1) (r : UserA1)
        (users' : List UserA1),
      update_user_me users cu uupd = (.ok r, users') →
      ((uupd.username = none ∨ uupd.username = some "") → r.username = cu.username) ∧
      (r.username = "" → cu.username = "")) := by
  constructor
  · intro db pid uid upd q p db' hf heq
    by_cases ha : q.author_id = uid
    · have hok : update_post db pid upd uid =
          (.ok (applyPostUpdate upd q),
            { db with posts := (db.posts.map (fun r =>
                if r.id == pid then applyPostUpdate upd q else r)) }) := by
        unfold update_post
        rw [hf]
        exact if_neg (by simp [ha])
      rw [hok] at heq
      simp only [Prod.mk.injEq, Except.ok.injEq] at heq
      obtain ⟨h1, -⟩ := heq
      subst h1
      exact applyPostUpdate_char upd q
    · have h403 : update_post db pid upd uid = (.error 403, db) := by
        unfold update_post
        rw [hf]
        exact if_pos (bne_iff_ne.mpr ha)
      rw [h403] at heq
      simp at heq
  · intro users cu uupd r users' heq
    rcases hstep : emailStepA1 users cu uupd with code | cu1
    · have herr : update_user_me users cu uupd = (.error code, users) := by
        unfold update_user_me
        rw [hstep]
      rw [herr] at heq
      simp at heq
    · have hok : update_user_me users cu uupd =
          (.ok (usernameStepA1 uupd cu1),
            users.map (fun u =>
              if u.id == cu.id then usernameStepA1 uupd cu1 else u)) := by
        unfold update_user_me
        rw [hstep]
      rw [hok] at heq
      simp only [Prod.mk.injEq, Except.ok.injEq] at heq
      obtain ⟨h1, -⟩ := heq
      subst h1
      have huser := emailStepA1_preserves_username users cu uupd cu1 hstep
      have hchar := usernameStepA1_char uupd cu1
      refine ⟨fun ht => (hchar.1 ht).trans huser, fun hempty => ?_⟩
      rw [← huser]
      exact hchar.2 hempty

/-- Concrete instantiation of `C10_truthy_updates`: updating post 1 with an
empty title and absent content leaves the stored fields as they were. -/
theorem C10_witness :
    update_post ⟨[], [⟨1, "T", "C", 7⟩], []⟩ 1 ⟨some "", none⟩ 7 =
        (.ok ⟨1, "T", "C", 7⟩, ⟨[], [⟨1, "T", "C", 7⟩], []⟩) ∧
      (⟨1, "T", "C", 7⟩ : Post).title = (⟨1, "T", "C", 7⟩ : Post).title :=
  ⟨rfl,
    (C10_truthy_updates.1 ⟨[], [⟨1, "T", "C", 7⟩], []⟩ 1 7 ⟨some "", none⟩
        ⟨1, "T", "C", 7⟩ ⟨1, "T", "C", 7⟩ ⟨[], [⟨1, "T", "C", 7⟩], []⟩ rfl rfl).1
      (Or.inr rfl)⟩

/-! ## Weather endpoint statuses: claim C6 -/

/-- C6 fails as stated: a non-2xx HTTP reply from the weather-data fetch is
an upstream dependency failure, yet `get_current_weather` answers 500, not
503 — its `try` block catches `httpx.RequestError` as 503 but
`httpx.HTTPStatusError` falls to the generic `except Exception` handler
(and in `get_weather_forecast` it propagates unhandled).  Concretely:
uncached city, geocoding succeeds, weather fetch returns an error
status. -/
theorem C6_counterexample :
    (get_current_weather (WeatherCache.init Nat) "Paris" 0 (GeoUpstream.ok Unit.unit)
        WeatherUpstream.httpStatusError).1 = .error 500 ∧
      (get_weather_forecast (WeatherCache.init Nat) "Paris" 0 (GeoUpstream.ok Unit.unit)
        WeatherUpstream.httpStatusError).1 = .error 500 ∧
      (500 : Nat) ≠ 503 :=
  ⟨rfl, rfl, by omega⟩

/-- C6 (amended): for every city, the two weather endpoints return the
cached payload (200) when the cache holds one; otherwise 404 when the
geocoding lookup finds no results; 503 when the geocoding call fails with
an HTTP error status or a network/timeout error, and when the weather-data
fetch fails with a network/timeout error (`httpx.RequestError`, which
includes the bounded 5-second timeout); but an HTTP error status from the
weather-data fetch itself yields 500; on success the payload is cached and
returned (200). -/
theorem C6_amended_weather_statuses {L P : Type} (c : WeatherCache P)
    (city : String) (now : Int) (geo : GeoUpstream L) (wx : WeatherUpstream P) :
    (∀ d c1, c.get ("current_" ++ city.toLower) now = (some d, c1) →
      get_current_weather c city now geo wx = (.ok d, c1)) ∧
    (∀ c1, c.get ("current_" ++ city.toLower) now = (none, c1) →
      (geo = .noResults → get_current_weather c city now geo wx = (.error 404, c1)) ∧
      (geo = .httpStatusError ∨ geo = .requestError →
        get_current_weather c city now geo wx = (.error 503, c1)) ∧
      (∀ loc, geo = .ok loc →
        (∀ p, wx = .ok p →
          get_current_weather c city now geo wx =
            (.ok p, c1.set ("current_" ++ city.toLower) p now)) ∧
        (wx = .requestError →
          get_current_weather c city now geo wx = (.error 503, c1)) ∧
        (wx = .httpStatusError →
          get_current_weather c city now geo wx = (.error 500, c1)))) ∧
    (∀ d c1, c.get ("forecast_" ++ city.toLower) now = (some d, c1) →
      get_weather_forecast c city now geo wx = (.ok d, c1)) ∧
    (∀ c1, c.get ("forecast_" ++ city.toLower) now = (none, c1) →
      (geo = .noResults → get_weather_forecast c city now geo wx = (.error 404, c1)) ∧
      (geo = .httpStatusError ∨ geo = .requestError →
        get_weather_forecast c city now geo wx = (.error 503, c1)) ∧
      (∀ loc, geo = .ok loc →
        (∀ p, wx = .ok p →
          get_weather_forecast c city now geo wx =
            (.ok p, c1.set ("forecast_" ++ city.toLower) p now)) ∧
        (wx = .requestError →
          get_weather_forecast c city now geo wx = (.error 503, c1)) ∧
        (wx = .httpStatusError →
          get_weather_forecast c city now geo wx = (.error 500, c1)))) := by
  refine ⟨?_, ?_, ?_, ?_⟩
  · intro d c1 hget
    simp only [get_current_weather]
    rw [hget]
  · intro c1 hget
    refine ⟨?_, ?_, ?_⟩
    · intro hgeo
      subst hgeo
      simp only [get_current_weather]
      rw [hget]
      rfl
    · intro hgeo
      rcases hgeo with h | h <;> subst h <;>
        simp only [get_current_weather] <;> rw [hget] <;> rfl
    · intro loc hgeo
      subst hgeo
      refine ⟨?_, ?_, ?_⟩
      · intro p hp
        subst hp
        simp only [get_current_weather]
        rw [hget]
        rfl
      · intro hp
        subst hp
        simp only [get_current_weather]
        rw [hget]
        rfl
      · intro hp
        subst hp
        simp only [get_current_weather]
        rw [hget]
        rfl
  · intro d c1 hget
    simp only [get_weather_forecast]
    rw [hget]
  · intro c1 hget
    refine ⟨?_, ?_, ?_⟩
    · intro hgeo
      subst hgeo
      simp only [get_weather_forecast]
      rw [hget]
      rfl
    · intro hgeo
      rcases hgeo with h | h <;> subst h <;>
        simp only [get_weather_forecast] <;> rw [hget] <;> rfl
    · intro loc hgeo
      subst hgeo
      refine ⟨?_, ?_, ?_⟩
      · intro p hp
        subst hp
        simp only [get_weather_forecast]
        rw [hget]
        rfl
      · intro hp
        subst hp
        simp only [get_weather_forecast]
        rw [hget]
        rfl
      · intro hp
        subst hp
        simp only [get_weather_forecast]
        rw [hget]
        rfl

/-- Concrete instantiation of `C6_amended_weather_statuses`: uncached
city, geocoding succeeds, weather fetch times out — 503. -/
theorem C6_amended_witness :
    get_current_weather (WeatherCache.init Nat) "Paris" 0 (GeoUpstream.ok Unit.unit)
        WeatherUpstream.requestError = (.error 503, ⟨[], 0, 1⟩) :=
  (((C6_amended_weather_statuses (WeatherCache.init Nat) "Paris" 0
      (GeoUpstream.ok Unit.unit) WeatherUpstream.requestError).2.1
        ⟨[], 0, 1⟩ rfl).2.2 Unit.unit rfl).2.1 rfl

/-! ## Post search and pagination: claim C8 -/

/-- A case-insensitive leading-segment test against the empty string
succeeds only for the empty needle. -/
theorem ciLeads_nil (p : List Char) : ciLeads p [] = p.isEmpty := by
  cases p <;> rfl

/-- The empty needle is a substring of everything. -/
theorem ciSub_nil (s : List Char) : ciSub [] s = true := by
  cases s <;> simp [ciSub, ciLeads]

/-- `ciSub` tries `ciLeads` on every suffix. -/
theorem ciSub_eq_tails_any (p s : List Char) :
    ciSub p s = s.tails.any (fun t => ciLeads p t) := by
  induction s with
  | nil => simp [ciSub, ciLeads_nil]
  | cons c tl ih => simp [ciSub, ih]

/-- A pattern consisting of a single `%` matches every string. -/
theorem likeMatch_percent_nil (s : List Char) : likeMatch ['%'] s = true := by
  have h : ([] : List Char) ∈ s.tails := (List.mem_tails [] s).mpr List.nil_suffix
  simp only [likeMatch]
  rw [if_true, List.any_eq_true]
  exact ⟨[], h, rfl⟩

/-- A wildcard-free pattern followed by `%` matches exactly the strings it
leads case-insensitively. -/
theorem likeMatch_lit_append_percent (p : List Char)
    (hp : ∀ ch ∈ p, ch ≠ '%' ∧ ch ≠ '_') (s : List Char) :
    likeMatch (p ++ ['%']) s = ciLeads p s := by
  induction p generalizing s with
  | nil => simp [likeMatch_percent_nil, ciLeads]
  | cons a as ih =>
    have ha := hp a (List.mem_cons_self a as)
    have hps : ∀ ch ∈ as, ch ≠ '%' ∧ ch ≠ '_' :=
      fun ch hch => hp ch (List.mem_cons_of_mem a hch)
    cases s with
    | nil => simp [likeMatch, ciLeads, ha.1]
    | cons c tl => simp [likeMatch, ciLeads, ha.1, ha.2, ih hps]

/-- For a wildcard-free search string `p`, the `%p%` LIKE pattern tests
exactly case-insensitive substring occurrence. -/
theorem likeMatch_wrap_eq_ciSub (p : List Char)
    (hp : ∀ ch ∈ p, ch ≠ '%' ∧ ch ≠ '_') (s : List Char) :
    likeMatch ('%' :: (p ++ ['%'])) s = ciSub p s := by
  rw [ciSub_eq_tails_any]
  simp only [likeMatch]
  rw [if_true]
  simp only [likeMatch_lit_append_percent p hp]

/-- C8 fails as stated: the handler filters with SQL
`ilike(f"%{search}%")`, in which `%` and `_` are wildcards, so a search
string containing them is not matched as a literal substring.  Searching
"P_thon" returns the post titled "Python Basics" (`_` matches the `y`),
although "p_thon" is not a substring of the title under any case
folding. -/
theorem C8_counterexample :
    get_posts [⟨1, "Python Basics", "B", 1⟩] 0 10 (some "P_thon") =
        [⟨1, "Python Basics", "B", 1⟩] ∧
      get_posts_specSearch [⟨1, "Python Basics", "B", 1⟩] 0 10 (some "P_thon") = [] ∧
      containsCI "Python Basics" "P_thon" = false := by decide

/-- C8 (amended): for every search string free of the SQL wildcards `%`
and `_`, `GET /posts` returns exactly the posts whose title contains the
search string as a case-insensitive substring, skipping the first `skip`
matches and returning at most `limit` (searches containing `%` or `_` are
instead interpreted as LIKE wildcards); with no search all posts are
paginated; the "FastAPI Guide"/"Python Basics" example and the
15-post pagination counts behave as the spec states. -/
theorem C8_amended_search_pagination :
    (∀ (posts : List Post) (skip limit : Nat) (s : String),
      (∀ ch ∈ s.toList, ch ≠ '%' ∧ ch ≠ '_') →
      get_posts posts skip limit (some s) =
        get_posts_specSearch posts skip limit (some s)) ∧
    (∀ (posts : List Post) (skip limit : Nat),
      get_posts posts skip limit none = (posts.drop skip).take limit) ∧
    (get_posts [⟨1, "FastAPI Guide", "A", 1⟩, ⟨2, "Python Basics", "B", 1⟩] 0 10
        (some "python") = [⟨2, "Python Basics", "B", 1⟩]) ∧
    (get_posts [⟨1, "FastAPI Guide", "A", 1⟩, ⟨2, "Python Basics", "B", 1⟩] 0 10
        (some "PYTHON") = [⟨2, "Python Basics", "B", 1⟩]) ∧
    ((get_posts ((List.range 15).map (fun i => ⟨i + 1, "Post", "Content", 1⟩))
        0 10 none).length = 10 ∧
      (get_posts ((List.range 15).map (fun i => ⟨i + 1, "Post", "Content", 1⟩))
        10 10 none).length = 5) := by
  refine ⟨?_, fun posts skip limit => rfl, by decide, by decide, by decide, by decide⟩
  intro posts skip limit s hs
  simp only [get_posts, get_posts_specSearch]
  by_cases hempty : s = ""
  · subst hempty
    rw [if_neg (by simp)]
    have hall : ∀ p ∈ posts, containsCI p.title "" = true :=
      fun p _ => ciSub_nil p.title.toList
    rw [List.filter_eq_self.mpr hall]
  · rw [if_pos (bne_iff_ne.mpr hempty)]
    have hfeq : posts.filter (fun p => ilike p.title ("%" ++ s ++ "%")) =
        posts.filter (fun p => containsCI p.title s) := by
      apply List.filter_congr
      intro p _
      unfold ilike containsCI
      have hlist : ("%" ++ s ++ "%").toList = '%' :: (s.toList ++ ['%']) := by
        simp only [String.toList, String.data_append]
        simp
      rw [hlist]
      exact likeMatch_wrap_eq_ciSub s.toList hs p.title.toList
    rw [hfeq]

/-- Concrete instantiation of `C8_amended_search_pagination`: the
wildcard-free search "fast" agrees with the substring semantics. -/
theorem C8_amended_witness :
    get_posts [⟨1, "FastAPI Guide", "A", 1⟩, ⟨2, "Python Basics", "B", 1⟩] 0 10
        (some "fast") =
      get_posts_specSearch [⟨1, "FastAPI Guide", "A", 1⟩, ⟨2, "Python Basics", "B", 1⟩]
        0 10 (some "fast") :=
  C8_amended_search_pagination.1
    [⟨1, "FastAPI Guide", "A", 1⟩, ⟨2, "Python Basics", "B", 1⟩] 0 10 "fast"
    (by decide)

end FastAPIAssignment
